import Mathlib

/-!
# Verification development for the PeerVer2 review-training workflow engine

This file gives a shallow embedding, in Lean 4, of the core orchestration code
of the repository (code generation / defect evaluation / bounded regeneration /
review analysis), and proves or refutes the specification claims about it.

Embedding conventions:

* Python dictionary payloads are modelled by `PyVal` / `PyDict` (insertion
  ordered association lists with unique keys), because several of the checked
  properties hinge on the exact key strings used at each site (`"valid"` vs
  the translated `"Valid"`, `"identified_count"` vs `"Identified Count"`).
* The translation function `utils.language_utils.t` is modelled for the
  default session language English (`DEFAULT_LANGUAGE = "en"` in
  `language/__init__.py`); keys absent from `language/en.py`'s table translate
  to themselves, exactly as in the source.
* String processing (`splitlines`, `strip`, regex searches) is modelled over
  ASCII text with `'\n'` line endings, which covers every string the modelled
  code paths construct and every concrete input used below.
* Calls to the external text-generation backend are represented by passing the
  textual response as an explicit argument; a Python code path that can raise
  an exception is modelled with `Option` (`none` = exception).
-/

set_option autoImplicit false

namespace PeerVer

/-- A Python value as it occurs in the engine's dictionary payloads.
Integers are modelled by `Nat` (all counts in the modelled code are
non-negative), floats by `ℚ`. -/
inductive PyVal where
  | pnone
  | pbool (b : Bool)
  | pnat (n : Nat)
  | prat (q : ℚ)
  | pstr (s : String)
  | plist (xs : List PyVal)
  | pdict (d : List (String × PyVal))
deriving Repr

/-- A Python dictionary: insertion-ordered association list; `dset` keeps keys
unique, mirroring dict assignment semantics. -/
abbrev PyDict := List (String × PyVal)

namespace PyVal

/-- Python truthiness of a value (`bool(v)`). -/
def truthy : PyVal → Bool
  | pnone => false
  | pbool b => b
  | pnat n => n != 0
  | prat q => q != 0
  | pstr s => s != ""
  | plist xs => !xs.isEmpty
  | pdict d => !d.isEmpty

/-- Python `==` between values, for the scalar shapes compared by the modelled
code paths.  List equality is elementwise; `dict == dict` is not exercised by
any modelled comparison and is left `false`. -/
def pyEq : PyVal → PyVal → Bool
  | pnone, pnone => true
  | pbool a, pbool b => a == b
  | pnat a, pnat b => a == b
  | prat a, prat b => a == b
  | pnat a, prat b => (a : ℚ) == b
  | prat a, pnat b => a == (b : ℚ)
  | pbool a, pnat b => (if a then 1 else 0) == b
  | pnat a, pbool b => a == (if b then 1 else 0)
  | pstr a, pstr b => a == b
  | plist as, plist bs => pyEqList as bs
  | _, _ => false
where
  /-- Elementwise Python `==` on lists. -/
  pyEqList : List PyVal → List PyVal → Bool
  | [], [] => true
  | a :: as, b :: bs => pyEq a b && pyEqList as bs
  | _, _ => false

/-- Python `v > 0` for the numeric values the modelled code compares;
`none` models the `TypeError` raised on non-numeric operands. -/
def gtZero : PyVal → Option Bool
  | pnat n => some (0 < n)
  | prat q => some (0 < q)
  | pbool b => some b
  | _ => none

/-- Numeric coercion used where Python arithmetic is performed
(`none` models a `TypeError`; Python `bool` is an `int`). -/
def toRat : PyVal → Option ℚ
  | pnat n => some (n : ℚ)
  | prat q => some q
  | pbool b => some (if b then 1 else 0)
  | _ => none

/-- Python `len(v)`; `none` models the `TypeError` for unsized values. -/
def pyLen : PyVal → Option Nat
  | pstr s => some s.length
  | plist xs => some xs.length
  | pdict d => some d.length
  | _ => none

/-- Python `str(v)` for the value shapes that reach `str()` in the modelled
paths (strings and scalars; containers are not `str()`-ed on any modelled
path and get a placeholder rendering). -/
def pyStr : PyVal → String
  | pnone => "None"
  | pbool b => if b then "True" else "False"
  | pnat n => toString n
  | prat q => toString q.num
  | pstr s => s
  | plist _ => "[...]"
  | pdict _ => "{...}"

/-- `v is None` as used by `_process_evaluation_result`. -/
def isNone : PyVal → Bool
  | pnone => true
  | _ => false

/-- `isinstance(v, list)`. -/
def isList : PyVal → Bool
  | plist _ => true
  | _ => false

/-- `isinstance(v, dict)`. -/
def isDict : PyVal → Bool
  | pdict _ => true
  | _ => false

end PyVal

/-- Raw dictionary lookup: `d[k]` as an `Option` (`none` = `KeyError`). -/
def dfind : PyDict → String → Option PyVal
  | [], _ => none
  | (k', v) :: rest, k => if k' = k then some v else dfind rest k

/-- `d.get(k, default)`. -/
def dget (d : PyDict) (k : String) (dflt : PyVal) : PyVal :=
  (dfind d k).getD dflt

/-- `d[k] = v`: replace the binding in place if the key exists, else append
(Python dicts preserve insertion order and keep keys unique). -/
def dset : PyDict → String → PyVal → PyDict
  | [], k, v => [(k, v)]
  | (k', v') :: rest, k, v =>
      if k' = k then (k', v) :: rest else (k', v') :: dset rest k v

/-! ## Python string helpers (ASCII / `'\n'` model) -/

/-- The characters `\s` matches in the modelled (ASCII) texts. -/
def isPyWs (c : Char) : Bool :=
  c = ' ' || c = '\t' || c = '\n' || c = '\r' || c = '\x0b' || c = '\x0c'

/-- `s.strip()`. -/
def pyStrip (s : String) : String :=
  String.mk ((s.toList.dropWhile isPyWs).reverse.dropWhile isPyWs).reverse

/-- `s.rstrip()`. -/
def pyRstrip (s : String) : String :=
  String.mk (s.toList.reverse.dropWhile isPyWs).reverse

/-- `s.lower()` (ASCII). -/
def pyLower (s : String) : String :=
  String.mk (s.toList.map Char.toLower)

/-- Split a character list at every occurrence of `sep` (the pieces of
Python's `s.split(sep)` for a single-character separator). -/
def splitCharAux (sep : Char) : List Char → List Char → List String
  | [], acc => [String.mk acc.reverse]
  | c :: rest, acc =>
      if c = sep then String.mk acc.reverse :: splitCharAux sep rest []
      else splitCharAux sep rest (c :: acc)

/-- `s.split('\n')` (never drops pieces: `"".split('\n') = [""]`). -/
def pySplitNl (s : String) : List String :=
  splitCharAux '\n' s.toList []

/-- `s.splitlines()` for `'\n'`-separated text: split on `'\n'` and drop the
empty piece a trailing newline would produce (so `"a\n".splitlines() = ["a"]`
and `"".splitlines() = []`). -/
def pySplitlines (s : String) : List String :=
  if s = "" then []
  else
    let parts := pySplitNl s
    if parts.getLast? = some "" then parts.dropLast else parts

/-- First index (if any) at which `pat` occurs in `cs`, searching from the
current position. -/
def firstIdxOfAux (pat : List Char) : List Char → Nat → Option Nat
  | [], i => if pat = [] then some i else none
  | c :: rest, i =>
      if pat.isPrefixOf (c :: rest) then some i
      else firstIdxOfAux pat rest (i + 1)

/-- `s.find(pat)` as an `Option` (index of the first occurrence). -/
def firstIdxOf (s pat : String) : Option Nat :=
  firstIdxOfAux pat.toList s.toList 0

/-- `pat in s`. -/
def strContains (s pat : String) : Bool :=
  (firstIdxOf s pat).isSome

/-- `s[i:j]` for `0 ≤ i ≤ j` (character indices). -/
def strSlice (s : String) (i j : Nat) : String :=
  String.mk ((s.toList.drop i).take (j - i))

/-- `s[:i]`. -/
def strTake (s : String) (i : Nat) : String :=
  String.mk (s.toList.take i)

/-! ## The translation function `t` (`utils/language_utils.py`)

Modelled for the default session language (`DEFAULT_LANGUAGE = "en"`).
The table lists the entries of `language/en.py` that the modelled code paths
look up; any other key translates to itself, which is exactly the source's
fallback (`translations.get(key, key)`). -/

/-- Entries of `language/en.py` used by the modelled code. -/
def enTranslations : List (String × String) :=
  [ ("easy", "Easy")
  , ("medium", "Medium")
  , ("hard", "Hard")
  , ("valid", "Valid")
  , ("missing_errors", "missing_errors")
  , ("found_errors", "found_errors")
  , ("feedback", "Feedback")
  , ("identified_count", "Identified Count")
  , ("total_problems", "Total Problems")
  , ("identified_percentage", "Identified Percentage")
  , ("accuracy_percentage", "Accuracy Percentage")
  , ("review_sufficient", "Review Sufficient")
  , ("identified_problems", "Identified Problems")
  , ("missed_problems", "Missed Problems")
  , ("extraction_failed", "EXTRACTION_FAILED")
  , ("error_type", "Error Type")
  , ("error_name", "Error Name")
  , ("original_error_count", "Original Error Count")
  , ("category", "Category")
  , ("name", "name")
  , ("error_name_variable", "error_name")
  , ("description", "description")
  , ("implementation_guide", "implementation_guide") ]

/-- `t(key)`: translate a key to the current (default: English) language,
falling back to the key itself. -/
def t (key : String) : String :=
  match enTranslations.lookup key with
  | some v => v
  | none => key

/-! ## Regex searches used by the evaluation pipeline

`re.search(r'([A-Z]+)\s*-\s*([^:]+)', s)` in `_process_evaluation_result`
(`core/code_evaluation.py`).  For this pattern a greedy, non-backtracking scan
is exact: shrinking `[A-Z]+` or `\s*` can never turn a failure into a match,
because the dropped characters can satisfy neither the following `-` nor `\d`.
The search returns the two capture groups of the leftmost match. -/

/-- `'A' ≤ c ≤ 'Z'` (the character class `[A-Z]`). -/
def isAsciiUpper (c : Char) : Bool :=
  'A' ≤ c && c ≤ 'Z'

/-- Try to match `([A-Z]+)\s*-\s*([^:]+)` anchored at the head of `cs`. -/
def errKeyMatchAt (cs : List Char) : Option (String × String) :=
  let u := cs.takeWhile isAsciiUpper
  if u.isEmpty then none
  else
    let r1 := (cs.drop u.length).dropWhile isPyWs
    match r1 with
    | '-' :: r2 =>
        let r3 := r2.dropWhile isPyWs
        let g2 := r3.takeWhile (fun c => c != ':')
        if g2.isEmpty then none else some (String.mk u, String.mk g2)
    | _ => none

/-- Leftmost match of `([A-Z]+)\s*-\s*([^:]+)` in a character list. -/
def errKeySearchAux : List Char → Option (String × String)
  | [] => none
  | c :: rest =>
      match errKeyMatchAt (c :: rest) with
      | some r => some r
      | none => errKeySearchAux rest

/-- `re.search(r'([A-Z]+)\s*-\s*([^:]+)', s)`, returning the capture groups. -/
def errKeySearch (s : String) : Option (String × String) :=
  errKeySearchAux s.toList

/-- `re.compile(r'(?:Line|行)\s*\d+\s*[:：]')` of
`validate_review_format` (`core/student_response_evaluator.py`): match
`\s*\d+\s*[:：]` at the head of `cs` (after the `Line`/`行` literal).  As for
the pattern above, greedy scanning is exact here. -/
def lineRefAfterTag (cs : List Char) : Bool :=
  let r1 := cs.dropWhile isPyWs
  let ds := r1.takeWhile Char.isDigit
  if ds.isEmpty then false
  else
    match (r1.drop ds.length).dropWhile isPyWs with
    | ':' :: _ => true
    | '：' :: _ => true
    | _ => false

/-- Search for `(?:Line|行)\s*\d+\s*[:：]` anywhere in a character list. -/
def lineRefSearchAux : List Char → Bool
  | [] => false
  | c :: rest =>
      (['L', 'i', 'n', 'e'].isPrefixOf (c :: rest) && lineRefAfterTag ((c :: rest).drop 4))
      || (c = '行' && lineRefAfterTag rest)
      || lineRefSearchAux rest

/-- `valid_line_pattern.search(line)` of `validate_review_format`. -/
def lineRefSearch (line : String) : Bool :=
  lineRefSearchAux line.toList

/-! ## `utils/code_utils.py`: code extraction -/

/-- One step of the clean-code synthesis loop of `extract_both_code_versions`
(`utils/code_utils.py` lines 458-469): on a line containing `"// ERROR:"`,
keep only the (right-stripped) part before the comment, and drop the line when
nothing is left (`if cleaned_line:`); other lines are kept as they are. -/
def cleanOneLine (line : String) : Option String :=
  if strContains line "// ERROR:" then
    let idx := (firstIdxOf line "// ERROR:").getD 0
    let cleaned := pyRstrip (strTake line idx)
    if cleaned ≠ "" then some cleaned else none
  else some line

/-- The list of clean lines synthesized from an annotated block
(the `clean_lines` accumulator of the loop). -/
def synthesizeCleanLines (annotated : String) : List String :=
  (pySplitlines annotated).filterMap cleanOneLine

/-- `"\n".join(clean_lines)`: the clean code synthesized from an annotated
block when no clean block was extracted. -/
def synthesizeClean (annotated : String) : String :=
  String.intercalate "\n" (synthesizeCleanLines annotated)

/-- `re.findall(r'```TAG\s*(.*?)\s*```', text, re.DOTALL)` for the fence
patterns of `extract_both_code_versions`.  For these patterns the captured
group of each match is the text between the fence header and the next
` ``` `, with surrounding whitespace stripped (the leading `\s*` is greedy and
maximal; the lazy group ends where the maximal whitespace run before the
closing fence begins); scanning resumes after the closing fence.  `fuel`
bounds the recursion by the text length. -/
def fencedBlocksAux (header : List Char) (cs : List Char) : Nat → List String
  | 0 => []
  | fuel + 1 =>
      match firstIdxOfAux header cs 0 with
      | none => []
      | some h =>
          let afterHeader := cs.drop (h + header.length)
          match firstIdxOfAux ['`', '`', '`'] afterHeader 0 with
          | none => []
          | some c =>
              let between := afterHeader.take c
              let group :=
                String.mk ((between.dropWhile isPyWs).reverse.dropWhile isPyWs).reverse
              group :: fencedBlocksAux header (afterHeader.drop (c + 3)) fuel

/-- All captured groups of ` ```tag\s*(.*?)\s*``` ` in `s` (`tag = ""` gives
the generic ` ```\s*(.*?)\s*``` ` pattern). -/
def fencedBlocks (tag : String) (s : String) : List String :=
  fencedBlocksAux ("```" ++ tag).toList s.toList (s.length + 1)

/-- `max(blocks, key=len)` (first of the longest, as in Python). -/
def maxByLen : List String → String
  | [] => ""
  | b :: bs =>
      let rest := maxByLen bs
      if bs.isEmpty then b else if rest.length > b.length then rest else b

/-- Remove every (non-overlapping, left-to-right) occurrence of `pat` from
`cs` — Python's `s.replace(pat, "")`; `fuel` bounds the recursion by the text
length (each step consumes at least one character for non-empty `pat`). -/
def removeAllAux (pat : List Char) : List Char → Nat → List Char
  | _, 0 => []
  | [], _ + 1 => []
  | c :: rest, fuel + 1 =>
      if pat.isPrefixOf (c :: rest) then
        removeAllAux pat ((c :: rest).drop pat.length) fuel
      else c :: removeAllAux pat rest fuel

/-- `s.replace(pat, "")`. -/
def removeAll (s pat : String) : String :=
  String.mk (removeAllAux pat.toList s.toList (s.length + 1))

/-- The first character of a string, if any. -/
def strHead? (s : String) : Option Char :=
  s.toList.head?

/-- The last character of a string, if any. -/
def strLast? (s : String) : Option Char :=
  s.toList.getLast?

/-- `replace("content=", "")` + quote trimming of the Groq-format branch of
`extract_both_code_versions` (lines 421-427). -/
def groqUnwrap (s : String) : String :=
  if strContains s "content=" && !("```".toList.isPrefixOf s.toList) then
    let s' := removeAll s "content="
    if (strHead? s' = some '"' && strLast? s' = some '"')
        || (strHead? s' = some '\'' && strLast? s' = some '\'') then
      strSlice s' 1 (s'.length - 1)
    else s'
  else s

/-- `extract_both_code_versions(response)` (`utils/code_utils.py`), for a
string response: extract the `java-annotated` and `java-clean` fenced blocks,
fall back to a `java` fence and then to the largest generic fence for the
annotated slot, and synthesize the clean slot from the annotated one when only
the latter was found.  Returns `(annotated_code, clean_code)`. -/
def extractBothCodeVersions (response : String) : String × String :=
  let text := groqUnwrap response
  let annotated0 := match fencedBlocks "java-annotated" text with
    | a :: _ => a
    | [] => ""
  let clean := match fencedBlocks "java-clean" text with
    | c :: _ => c
    | [] => ""
  let annotated := if annotated0 = "" then
      match fencedBlocks "java" text with
      | j :: js => (j :: js).headD ""
      | [] =>
          match fencedBlocks "" text with
          | [] => ""
          | b :: bs => maxByLen (b :: bs)
    else annotated0
  let clean := if annotated != "" && clean == "" then synthesizeClean annotated else clean
  (annotated, clean)

/-! ## `utils/code_utils.py`: `get_error_count_from_state` -/

/-- The attributes `get_error_count_from_state` reads from its `state`
argument via `getattr(-, -, default)`. -/
structure ErrCountSource where
  selected_specific_errors : Option (List PyDict) := none
  original_error_count : Nat := 0
  selected_error_categories : Option PyDict := none

/-- A Python `str` passed where a state object is expected: every
`getattr(state, ..., default)` yields the default. -/
def strAsErrCountSource (_difficulty : String) : ErrCountSource := {}

/-- The difficulty map of `get_error_count_from_state` (note the keys are the
*translated* difficulty names, capitalized in English). -/
def difficultyMap : List (String × Nat) :=
  [(t "easy", 2), (t "medium", 4), (t "hard", 6)]

/-- `get_error_count_from_state(state, difficulty_level="medium")`
(`utils/code_utils.py` lines 545-581). -/
def getErrorCountFromState (src : ErrCountSource) (difficulty_level : String := "medium") : Nat :=
  match src.selected_specific_errors with
  | some specific =>
      if specific.length > 0 then specific.length
      else restOfLookup src difficulty_level
  | none => restOfLookup src difficulty_level
where
  /-- The fallbacks after the `selected_specific_errors` check. -/
  restOfLookup (src : ErrCountSource) (difficulty_level : String) : Nat :=
    if src.original_error_count > 0 then src.original_error_count
    else
      match src.selected_error_categories with
      | some cats =>
          if !cats.isEmpty then
            let java_errors := dget cats "java_errors" (PyVal.plist [])
            let category_count := (java_errors.pyLen).getD 0
            if category_count > 0 then max category_count 2
            else ((difficultyMap.lookup (pyLower difficulty_level)).getD 4)
          else ((difficultyMap.lookup (pyLower difficulty_level)).getD 4)
      | none => ((difficultyMap.lookup (pyLower difficulty_level)).getD 4)

/-- The error count requested by `generate_code_node` in category mode
(`workflow/node.py` line 104): the node passes the *difficulty string* as the
`state` argument of `get_error_count_from_state`, leaving the `difficulty_level`
parameter at its default `"medium"`. -/
def generateRequiredErrorCount (difficulty_level : String) : Nat :=
  getErrorCountFromState (strAsErrCountSource difficulty_level)

/-! ## The workflow state (`state_schema.py`) -/

/-- `CodeSnippet` of `state_schema.py`. -/
structure CodeSnippet where
  code : String
  clean_code : String := ""
  raw_errors : PyDict := []
  expected_error_count : Nat := 0
deriving Repr

/-- `ReviewAttempt` of `state_schema.py` (the `analysis` dict is attached by
`analyze_review_node`). -/
structure ReviewAttempt where
  student_review : String
  iteration_number : Nat
  analysis : PyDict := []
  targeted_guidance : Option String := none
deriving Repr

/-- `WorkflowState` of `state_schema.py`, restricted to the fields the
modelled code reads or writes.  `current_step` is a plain string: pydantic
does not validate assignments, and the nodes do assign values (`"evaluate"`,
`"regenerate"`) outside the declared `Literal`. -/
structure WState where
  current_step : String := "generate"
  code_length : String := "medium"
  difficulty_level : String := "medium"
  domain : Option String := none
  selected_error_categories : PyDict := [("java_errors", PyVal.plist [])]
  selected_specific_errors : List PyDict := []
  code_snippet : Option CodeSnippet := none
  review_history : List ReviewAttempt := []
  current_iteration : Nat := 1
  max_iterations : Nat := 3
  review_sufficient : Bool := false
  error : Option String := none
  evaluation_result : Option PyDict := none
  evaluation_attempts : Nat := 0
  max_evaluation_attempts : Nat := 5
  code_generation_feedback : Option String := none
  original_error_count : Nat := 0
deriving Repr

/-! ## `core/code_evaluation.py`: evaluation-result processing -/

/-- Process one entry of a `found_errors`/`missing_errors` list, as in the
loops of `_process_evaluation_result` (lines 376-423): a dict entry is
formatted from its `t("error_type")`/`t("error_name")` values (a missing key
raises `KeyError`, modelled by `none` of the outer `Option`) and kept only
when both are truthy; any other entry is `str()`-ed and kept only if the
`([A-Z]+)\s*-\s*([^:]+)` search succeeds. -/
def processErrorList : List PyVal → Option (List String)
  | [] => some []
  | v :: rest => do
      let tail ← processErrorList rest
      match v with
      | PyVal.pdict d => do
          let et ← dfind d (t "error_type")
          let en ← dfind d (t "error_name")
          if et.truthy && en.truthy then
            pure ((et.pyStr ++ " - " ++ en.pyStr) :: tail)
          else pure tail
      | other =>
          match errKeySearch other.pyStr with
          | some (g1, g2) => pure ((pyStrip g1 ++ " - " ++ pyStrip g2) :: tail)
          | none => pure tail

/-- The default result `_process_evaluation_result` substitutes for a `None`
input (lines 326-333). -/
def noneResultDefault : PyDict :=
  [ (t "found_errors", PyVal.plist [])
  , (t "missing_errors", PyVal.plist [])
  , (t "valid", PyVal.pbool false)
  , (t "feedback", PyVal.pstr (t "failed_to_process_evaluation_result")) ]

/-- The default result `_process_evaluation_result` substitutes for a
non-dict input (lines 336-343). -/
def nonDictResultDefault : PyDict :=
  [ (t "found_errors", PyVal.plist [])
  , (t "missing_errors", PyVal.plist [])
  , (t "valid", PyVal.pbool false)
  , (t "feedback", PyVal.pstr (t "invalid_evaluation_result_type")) ]

/-- Field normalization of `_process_evaluation_result` (lines 345-359):
a key that is absent/`None` or bound to a non-list is replaced by `[]`. -/
def ensureListField (d : PyDict) (k : String) : PyDict :=
  let d := if (dget d k PyVal.pnone).isNone then dset d k (PyVal.plist []) else d
  if !(dget d k (PyVal.plist [])).isList then dset d k (PyVal.plist []) else d

/-- The write-back sequence at the end of `_process_evaluation_result`
(lines 425-442): store the processed lists, recompute `t("valid")` as
"`no missing` and `found count == requested count`", attach the original
requested count and a feedback message. -/
def buildProcessedResult (r1 : PyDict) (requested : List PyDict)
    (pf pm : List String) : PyDict :=
  let r2 := dset r1 (t "found_errors") (PyVal.plist (pf.map PyVal.pstr))
  let r3 := dset r2 (t "missing_errors") (PyVal.plist (pm.map PyVal.pstr))
  let validFlag := pm.length == 0 && pf.length == requested.length
  let r4 := dset r3 (t "valid") (PyVal.pbool validFlag)
  let r5 := dset r4 (t "original_error_count") (PyVal.pnat requested.length)
  let feedback :=
    if validFlag then
      t "all" ++ " " ++ toString requested.length ++ " " ++
        t "requested_errors_are_properly_implemented" ++ "."
    else
      t "found" ++ " " ++ toString pf.length ++ " " ++ t "out_of" ++ " " ++
        toString requested.length ++ " " ++ t "requested_errors" ++ ". " ++
        t "missing" ++ " " ++ toString pm.length ++ " " ++ t "errors" ++ "."
  dset r5 (t "feedback") (PyVal.pstr feedback)

/-- `_process_evaluation_result(result, requested_errors)`
(`core/code_evaluation.py` lines 313-442).  `none` models an escaping
exception (a `KeyError` on a malformed dict entry), which the caller
`evaluate_code` turns into the string `""`.  The `requested_keys` dict built
at lines 362-371 is never used for the outputs and is omitted. -/
def processEvaluationResult (result : PyVal) (requested : List PyDict) :
    Option PyDict := do
  let r0 : PyDict :=
    match result with
    | PyVal.pnone => noneResultDefault
    | PyVal.pdict d => d
    | _ => nonDictResultDefault
  let r1 := ensureListField (ensureListField r0 (t "found_errors")) (t "missing_errors")
  let foundRaw : List PyVal :=
    match dget r1 (t "found_errors") (PyVal.plist []) with
    | PyVal.plist xs => xs
    | _ => []
  let missingRaw : List PyVal :=
    match dget r1 (t "missing_errors") (PyVal.plist []) with
    | PyVal.plist xs => xs
    | _ => []
  let pf ← processErrorList foundRaw
  let pm ← processErrorList missingRaw
  pure (buildProcessedResult r1 requested pf pm)

/-- The structured default `_extract_json_from_response` returns when every
parsing strategy has failed (`core/code_evaluation.py` lines 303-311): the
single sentinel string `t("extraction_failed") = "EXTRACTION_FAILED"` in
`missing_errors` — the comment there reads "Include all requested errors as
missing to force regeneration" / "This will force regeneration". -/
def extractionFailureDefault : PyDict :=
  [ (t "found_errors", PyVal.plist [])
  , (t "missing_errors", PyVal.plist [PyVal.pstr (t "extraction_failed")])
  , (t "valid", PyVal.pbool false)
  , (t "feedback", PyVal.pstr (t "could_not_extract_proper_analysis")) ]

/-- `CodeEvaluationAgent.evaluate_code`, from the point where the parsed
response is processed: the result dict, or the string `""` when an exception
escapes `_process_evaluation_result` (the method's `except` branch). -/
def evaluateCodeAgent (parsed : PyVal) (requested : List PyDict) : PyVal :=
  match processEvaluationResult parsed requested with
  | some d => PyVal.pdict d
  | none => PyVal.pstr ""

/-! ## `workflow/node.py`: the node handlers -/

/-- `s.upper()` (ASCII). -/
def pyUpper (s : String) : String :=
  String.mk (s.toList.map Char.toUpper)

/-- The key-filling loop of `_extract_requested_errors` (`workflow/node.py`
lines 509-519): absent fields are set to `error.get(key, "") = ""`. -/
def ensureErrorFields (d : PyDict) : PyDict :=
  let fill := fun (d : PyDict) (k : String) =>
    if (dfind d (t k)).isNone then dset d (t k) (PyVal.pstr "") else d
  fill (fill (fill (fill d "category") "error_name_variable") "description") "implementation_guide"

/-- `_extract_requested_errors(state)` (`workflow/node.py` lines 473-540):
the `java_errors` list of the snippet's `raw_errors`, dict entries only, with
the standard fields filled in.  (The `elif`/fallback branches on
`selected_specific_errors` are unreachable: the pydantic model always has a
`raw_errors` attribute.) -/
def extractRequestedErrors (state : WState) : List PyDict :=
  match state.code_snippet with
  | none => []
  | some sn =>
      match dfind sn.raw_errors "java_errors" with
      | some (PyVal.plist xs) =>
          xs.filterMap fun v =>
            match v with
            | PyVal.pdict d => some (ensureErrorFields d)
            | _ => none
      | _ => []

/-- The fallback evaluation dict `evaluate_code_node` builds when the agent
did not return a dict (`workflow/node.py` lines 264-272); note the literal
(untranslated) keys, and that here `missing_errors` really is the full
requested list. -/
def nodeFallbackEvalResult (requested : List PyDict) (original : Nat) : PyDict :=
  [ ("found_errors", PyVal.plist [])
  , ("missing_errors", PyVal.plist (requested.map fun e =>
      PyVal.pstr (pyUpper (dget e "type" (PyVal.pstr "")).pyStr ++ " - " ++
        (dget e "name" (PyVal.pstr "")).pyStr)))
  , ("valid", PyVal.pbool false)
  , ("feedback", PyVal.pstr "Error in evaluation.")
  , ("original_error_count", PyVal.pnat original) ]

/-- `evaluate_code_node(state)` (`workflow/node.py` lines 226-353), with the
agent's return value passed in as `agentResult`.  The regeneration prompt
text stored in `code_generation_feedback` is presentation-only and is
abstracted to a marker string. -/
def evaluateCodeNode (state : WState) (agentResult : PyVal) : WState :=
  match state.code_snippet with
  | none => { state with error := some (t "no_code_snippet_evaluation") }
  | some sn =>
      let requested := extractRequestedErrors state
      let requested_count := requested.length
      let original0 := state.original_error_count
      let original1 := if original0 = 0 then sn.expected_error_count else original0
      let original := if original1 = 0 then requested_count else original1
      let d : PyDict :=
        match agentResult with
        | PyVal.pdict d0 =>
            -- lines 274-287: attach the original count (literal key), then
            -- explicitly override `'valid'` (literal key) from `missing_errors`
            let d1 := dset d0 "original_error_count" (PyVal.pnat original)
            let missing := dget d1 (t "missing_errors") (PyVal.plist [])
            let has_missing := (missing.pyLen.getD 0) > 0
            dset d1 "valid" (PyVal.pbool (!has_missing))
        | _ => nodeFallbackEvalResult requested original
      let attempts := state.evaluation_attempts + 1
      let missing_count := ((dget d (t "missing_errors") (PyVal.plist [])).pyLen).getD 0
      let needs_regeneration := missing_count > 0
      let next_step :=
        if (dget d (t "valid") (PyVal.pbool false)).truthy then "review"
        else if needs_regeneration && attempts < state.max_evaluation_attempts then "regenerate"
        else "review"
      { state with
          original_error_count := original
        , evaluation_result := some d
        , evaluation_attempts := attempts
        , code_generation_feedback := some "regeneration-prompt"
        , current_step := next_step }

/-- `generate_code_node(state)` (`workflow/node.py` lines 43-157) on its
success path, with the external interactions passed in: `pickedDomain` is the
random domain choice, `repoErrors` is what
`error_repository.get_errors_for_llm` returned, and `response` is the
generation call's text.  (The `except` wrapper and the dead inner emptiness
check of specific mode are not reached on this path.) -/
def generateCodeNode (state : WState) (pickedDomain : String)
    (repoErrors : List PyDict) (response : String) : WState :=
  let st := { state with
      evaluation_attempts := 0
    , evaluation_result := none
    , code_generation_feedback := none }
  let st := match st.domain with
    | none => { st with domain := some pickedDomain }
    | some dm => if dm = "" then { st with domain := some pickedDomain } else st
  if st.selected_specific_errors.length > 0 then
    let selected := st.selected_specific_errors
    generateContinue st selected selected.length response
  else
    let javaCats := dget st.selected_error_categories "java_errors" (PyVal.plist [])
    if st.selected_error_categories.isEmpty || !javaCats.truthy then
      { st with error := some (t "no_categories") }
    else
      let required := generateRequiredErrorCount st.difficulty_level
      let selected := repoErrors
      if selected.length < required then
        generateContinue st selected selected.length response
      else if selected.length > required then
        generateContinue st (selected.take required) required response
      else
        generateContinue st selected required response
where
  /-- Lines 127-152: extract both code versions from the response, build the
  snippet, record the original error count and advance to `"evaluate"` —
  with no emptiness check on the extracted code. -/
  generateContinue (st : WState) (selected : List PyDict) (n : Nat)
      (response : String) : WState :=
    let ac := extractBothCodeVersions response
    let snippet : CodeSnippet :=
      { code := ac.1
      , clean_code := ac.2
      , raw_errors := [("java_errors", PyVal.plist (selected.map PyVal.pdict))]
      , expected_error_count := n }
    { st with
        original_error_count := n
      , code_snippet := some snippet
      , current_step := "evaluate" }

/-! ## `workflow/conditions.py`: the transition functions -/

/-- `WorkflowConditions.should_regenerate_or_review(state)`
(`workflow/conditions.py` lines 23-68).  `none` models an escaping exception
(`len()` on an unsized `missing_errors` value). -/
def shouldRegenerateOrReview (state : WState) : Option String :=
  if state.current_step = "regenerate" then some "regenerate_code"
  else
    let validCheck :=
      match state.evaluation_result with
      | some d => !d.isEmpty && (dget d "valid" (PyVal.pbool false)).truthy
      | none => false
    if validCheck then some "review_code"
    else do
      let has_missing_errors ←
        match state.evaluation_result with
        | some d =>
            if d.isEmpty then pure false
            else do
              let n ← (dget d "missing_errors" (PyVal.plist [])).pyLen
              pure (decide (n > 0))
        | none => pure false
      let needs_regeneration := has_missing_errors
      if needs_regeneration && state.evaluation_attempts < state.max_evaluation_attempts then
        pure "regenerate_code"
      else pure "review_code"

/-- `WorkflowConditions.should_continue_review(state)`
(`workflow/conditions.py` lines 70-115).  Only the returned edge label is
modelled (the branch that returns `"generate_summary"` also sets
`state.review_sufficient`, which does not affect the outcome).  Note the
*untranslated* keys `"identified_count"` / `"total_problems"` read from the
analysis dict, and that the pydantic `ReviewAttempt` always has an `analysis`
attribute, so `hasattr(latest_review, "analysis")` is always true.  `none`
models an escaping exception (`>` on a non-numeric `total_problems`). -/
def shouldContinueReview (state : WState) : Option String :=
  match state.review_history.getLast? with
  | some latest_review =>
      let analysis := latest_review.analysis
      let identified_count := dget analysis "identified_count" (PyVal.pnat 0)
      let total_problems := dget analysis "total_problems" (PyVal.pnat 0)
      do
        let c1 ← if PyVal.pyEq identified_count total_problems then
            total_problems.gtZero
          else pure false
        if c1 || state.current_iteration > state.max_iterations then
          pure "generate_summary"
        else if state.review_sufficient then pure "generate_summary"
        else pure "continue_review"
  | none =>
      if state.review_sufficient then some "generate_summary"
      else some "continue_review"

/-! ## `core/student_response_evaluator.py`: review analysis -/

/-- The enhanced dict constructed at lines 157-164 of
`_process_enhanced_analysis`: translated keys throughout, the problem lists
re-read from the data with default `False` (the re-reads at lines 152-154
shadow the earlier defaulted reads), and the `review_sufficient` value read
through the *untranslated* key. -/
def buildEnhancedAnalysis (d : PyDict) (identified_count total_problems : PyVal)
    (identified_percentage : ℚ) : PyDict :=
  [ (t "identified_problems", dget d (t "identified_problems") (PyVal.pbool false))
  , (t "missed_problems", dget d (t "missed_problems") (PyVal.pbool false))
  , (t "identified_count", identified_count)
  , (t "total_problems", total_problems)
  , (t "identified_percentage", PyVal.prat identified_percentage)
  , (t "review_sufficient", dget d "review_sufficient" (PyVal.pbool false)) ]

/-- `_process_enhanced_analysis(analysis_data, known_problems)`
(`core/student_response_evaluator.py` lines 117-166).  A falsy input returns
the string `""` (the source's `return ""`); a truthy non-dict raises
(modelled `none`), as does the percentage arithmetic on non-numeric values.
Note the count is taken from the parsed data (default 0), the total from the
parsed data (default `len(known_problems)`), and the percentage is `100.0`
— not `0` — when the total is not positive. -/
def processEnhancedAnalysis (analysis_data : PyVal) (known_problems : List String) :
    Option PyVal :=
  if !analysis_data.truthy then some (PyVal.pstr "")
  else
    match analysis_data with
    | PyVal.pdict d => do
        let identified_count := dget d (t "identified_count") (PyVal.pnat 0)
        let total_problems := dget d (t "total_problems") (PyVal.pnat known_problems.length)
        let tpPos ← total_problems.gtZero
        let identified_percentage ←
          if tpPos then do
            let icq ← identified_count.toRat
            let tpq ← total_problems.toRat
            pure (icq / tpq * 100)
          else pure (100 : ℚ)
        pure (PyVal.pdict (buildEnhancedAnalysis d identified_count total_problems
          identified_percentage))
    | _ => none

/-- The write-back sequence of `analyze_review_node` for a positive original
count (`workflow/node.py` lines 424-441): override `total_problems` and both
percentage fields from the run's `original_error_count`, and set both
`review_sufficient` keys (the literal one and the translated one) when the
identified count equals the original count. -/
def buildUpdatedAnalysis (d0 : PyDict) (original_error_count : Nat)
    (identified_count : PyVal) (percentage : ℚ) : PyDict :=
  let d := dset d0 (t "total_problems") (PyVal.pnat original_error_count)
  let d := dset d (t "original_error_count") (PyVal.pnat original_error_count)
  let d := dset d (t "identified_percentage") (PyVal.prat percentage)
  let d := dset d (t "accuracy_percentage") (PyVal.prat percentage)
  if PyVal.pyEq identified_count (PyVal.pnat original_error_count) then
    dset (dset d "review_sufficient" (PyVal.pbool true))
      (t "review_sufficient") (PyVal.pbool true)
  else d

/-- The analysis-update block of `analyze_review_node` (`workflow/node.py`
lines 418-447): when the run's `original_error_count` is positive, override
`total_problems` and the percentages from it (the identified count itself is
read from the analysis, `analysis[t('identified_count')]`, and not
recomputed), and mark the review sufficient when that count equals the
original count; finally the state's `review_sufficient` is read back through
the *untranslated* key.  Returns the stored analysis dict and the new
`state.review_sufficient`; `none` models an escaping exception (`KeyError`
on a missing identified count, or non-numeric arithmetic). -/
def analyzeReviewUpdate (analysis : PyVal) (original_error_count : Nat) :
    Option (PyDict × Bool) :=
  match analysis with
  | PyVal.pdict d0 => do
      let d ←
        if original_error_count > 0 then do
          let identified_count ← dfind d0 (t "identified_count")
          let icq ← identified_count.toRat
          let percentage := icq / (original_error_count : ℚ) * 100
          pure (buildUpdatedAnalysis d0 original_error_count identified_count percentage)
        else pure d0
      let suff := (dget d "review_sufficient" (PyVal.pbool false)).truthy
      pure (d, suff)
  | _ => none

/-- `validate_review_format(student_review)`
(`core/student_response_evaluator.py` lines 440-467): a purely local check —
reject when the stripped review is empty, accept iff some line of the review
contains a `(?:Line|行)\s*\d+\s*[:：]` match.  (The source collects the
1-based indices of the matching lines; only their existence is used.) -/
def validateReviewFormat (student_review : String) : Bool × String :=
  if student_review = "" ∨ pyStrip student_review = "" then
    (false, t "review_cannot_be_empty")
  else
    let lines := pySplitNl (pyStrip student_review)
    let valid_lines := lines.filter lineRefSearch
    match valid_lines with
    | _ :: _ => (true, "")
    | [] => (false, t "please_use_format_line_description")

/-! ## Concrete scenario data used by the theorems below -/

/-- A requested defect descriptor, as the repository hands them to the
nodes. -/
def errOffByOne : PyDict :=
  [("type", PyVal.pstr "logical"), ("name", PyVal.pstr "Off-by-one")]

/-- A code snippet committed to one requested defect. -/
def snippetOne : CodeSnippet :=
  { code := "class A {}"
  , raw_errors := [("java_errors", PyVal.plist [PyVal.pdict errOffByOne])]
  , expected_error_count := 1 }

/-- A run state about to evaluate a generation with one requested defect. -/
def stateOne : WState :=
  { code_snippet := some snippetOne, original_error_count := 1 }

/-- A parsed verifier response whose `found_errors` and `missing_errors`
lists are both empty (e.g. the model returned `{"found_errors": [],
"missing_errors": []}`). -/
def parsedEmptyLists : PyVal :=
  PyVal.pdict [(t "found_errors", PyVal.plist []), (t "missing_errors", PyVal.plist [])]

/-- The evaluation dict the engine stores for `stateOne` after the verifier
reported nothing found and nothing missing. -/
def storedEmptyLists : PyDict :=
  ((evaluateCodeNode stateOne
      (evaluateCodeAgent parsedEmptyLists (extractRequestedErrors stateOne))).evaluation_result).getD []

/-- A state sitting at the explicit `"regenerate"` marker with its
evaluation budget exhausted. -/
def stateRegenExhausted : WState :=
  { current_step := "regenerate"
  , evaluation_attempts := 3
  , max_evaluation_attempts := 3
  , evaluation_result := some
      [("missing_errors", PyVal.plist [PyVal.pstr "LOGICAL - Off-by-one"]),
       ("valid", PyVal.pbool false)] }

/-- A pipeline-shaped stored analysis reporting a perfect score: translated
(capitalized) keys, as `_process_enhanced_analysis` writes them. -/
def analysisPerfect : PyDict :=
  [("Identified Count", PyVal.pnat 3), ("Total Problems", PyVal.pnat 3)]

/-- The review attempt carrying `analysisPerfect`. -/
def attemptPerfect : ReviewAttempt :=
  { student_review := "Line 1: off-by-one"
  , iteration_number := 1
  , analysis := analysisPerfect }

/-- A state whose latest review analysis reports a perfect score (in the
`ReviewAnalysis` fields, capitalized keys) with `reviewSufficient` still
false and iterations remaining. -/
def statePerfectScore : WState :=
  { review_history := [attemptPerfect]
  , current_iteration := 1
  , max_iterations := 3
  , review_sufficient := false }

/-- A generation state in specific-errors mode. -/
def stateSpecificMode : WState :=
  { selected_specific_errors := [errOffByOne], domain := some "banking" }

/-- An annotated code block one of whose lines consists solely of a
defect-tag comment. -/
def annotatedWithTagLine : String :=
  "int x = arr[n]; // ERROR: off-by-one\n// ERROR: missing check\nint y = 0;"

/-- A generation response carrying only an annotated block. -/
def responseAnnotatedOnly : String :=
  "```java-annotated\n" ++ annotatedWithTagLine ++ "\n```"

/-- Parsed analysis data whose reported count disagrees with its problem
list, and whose reported total disagrees with the run's count. -/
def analysisDataMismatch : PyVal :=
  PyVal.pdict
    [ (t "identified_count", PyVal.pnat 2)
    , (t "identified_problems", PyVal.plist [])
    , (t "total_problems", PyVal.pnat 7) ]

/-- Parsed analysis data reporting zero total problems. -/
def analysisDataZeroTotal : PyVal :=
  PyVal.pdict [(t "total_problems", PyVal.pnat 0), (t "identified_count", PyVal.pnat 0)]

/-- The known-problems list of a one-defect run. -/
def knownOne : List String := ["LOGICAL - Off-by-one: desc"]

/-- The enhanced analysis produced from `analysisDataMismatch`. -/
def enhancedMismatch : PyDict :=
  [ (t "identified_problems", PyVal.plist [])
  , (t "missed_problems", PyVal.pbool false)
  , (t "identified_count", PyVal.pnat 2)
  , (t "total_problems", PyVal.pnat 7)
  , (t "identified_percentage", PyVal.prat (((2 : Nat) : ℚ) / ((7 : Nat) : ℚ) * 100))
  , (t "review_sufficient", PyVal.pbool false) ]

/-- The analysis `analyze_review_node` stores for `analysisDataMismatch` on a
run with one original defect. -/
def storedMismatch : PyDict :=
  [ (t "identified_problems", PyVal.plist [])
  , (t "missed_problems", PyVal.pbool false)
  , (t "identified_count", PyVal.pnat 2)
  , (t "total_problems", PyVal.pnat 1)
  , (t "identified_percentage", PyVal.prat (((2 : Nat) : ℚ) / ((1 : Nat) : ℚ) * 100))
  , (t "review_sufficient", PyVal.pbool false)
  , (t "original_error_count", PyVal.pnat 1)
  , (t "accuracy_percentage", PyVal.prat (((2 : Nat) : ℚ) / ((1 : Nat) : ℚ) * 100)) ]

/-- The evaluation dict the engine stores for `stateOne` after a completely
unparsable verification response (every extraction strategy failed, so the
agent processed `extractionFailureDefault`). -/
def storedGarbage : PyDict :=
  ((evaluateCodeNode stateOne
      (evaluateCodeAgent (PyVal.pdict extractionFailureDefault)
        (extractRequestedErrors stateOne))).evaluation_result).getD []

/-! ## Helper lemmas -/

theorem dfind_dset_self (d : PyDict) (k : String) (v : PyVal) :
    dfind (dset d k v) k = some v := by
  induction d with
  | nil => simp [dset, dfind]
  | cons hd tl ih =>
      obtain ⟨k', v'⟩ := hd
      by_cases h : k' = k <;> simp [dset, dfind, h, ih]

theorem dfind_dset_ne (d : PyDict) (k k' : String) (v : PyVal) (h : k ≠ k') :
    dfind (dset d k v) k' = dfind d k' := by
  induction d with
  | nil => simp [dset, dfind, h]
  | cons hd tl ih =>
      obtain ⟨k0, v0⟩ := hd
      by_cases h0 : k0 = k
      · subst h0
        simp [dset, dfind, h]
      · simp [dset, dfind, h0, ih]

theorem dget_dset_self (d : PyDict) (k : String) (v dflt : PyVal) :
    dget (dset d k v) k dflt = v := by
  simp [dget, dfind_dset_self]

theorem dget_dset_ne (d : PyDict) (k k' : String) (v dflt : PyVal) (h : k ≠ k') :
    dget (dset d k v) k' dflt = dget d k' dflt := by
  simp [dget, dfind_dset_ne _ _ _ _ h]

theorem filterMap_length_le {α β : Type} (f : α → Option β) (l : List α) :
    (l.filterMap f).length ≤ l.length := by
  induction l with
  | nil => simp
  | cons a as ih =>
      cases hfa : f a with
      | none => simp [List.filterMap_cons, hfa]; omega
      | some b => simp [List.filterMap_cons, hfa]; omega

theorem filterMap_length_eq_iff {α β : Type} (f : α → Option β) (l : List α) :
    (l.filterMap f).length = l.length ↔ ∀ x ∈ l, f x ≠ none := by
  induction l with
  | nil => simp
  | cons a as ih =>
      cases hfa : f a with
      | none =>
          simp only [List.filterMap_cons, hfa, List.length_cons, List.mem_cons]
          constructor
          · intro h
            have := filterMap_length_le f as
            omega
          · intro h
            exact absurd hfa (h a (Or.inl rfl))
      | some b =>
          simp only [List.filterMap_cons, hfa, List.length_cons, List.mem_cons]
          constructor
          · intro h x hx
            rcases hx with rfl | hx
            · simp [hfa]
            · exact (ih.mp (by omega)) x hx
          · intro h
            have := ih.mpr (fun x hx => h x (Or.inr hx))
            omega

/-! ## The claims -/

/-- **C10.** In category-based selection mode the number of defects the
generate step requests from the catalog is the constant 4 for *every*
difficulty string: `generate_code_node` passes the difficulty string as the
`state` argument of `get_error_count_from_state` (so every `getattr` falls
back to its default), the `difficulty_level` parameter stays at its default
`"medium"`, and the difficulty map keys are the capitalized translations
`"Easy"/"Medium"/"Hard"` while the lookup key is lower-cased — so the lookup
always misses and the fallback 4 is returned. -/
theorem C10_category_count_constant_four :
    (∀ difficulty : String, generateRequiredErrorCount difficulty = 4) ∧
    difficultyMap = [("Easy", 2), ("Medium", 4), ("Hard", 6)] ∧
    difficultyMap.lookup (pyLower "medium") = none :=
  ⟨fun _ => rfl, rfl, rfl⟩

/-- **C9.** `validate_review_format` is a pure local check: it rejects
exactly when no line of the (stripped) review text matches the
`Line <N>: <description>` reference pattern — an empty or whitespace-only
review is rejected as well (its only "line" is empty and matches nothing) —
and in particular the review `"this code is bad"` is rejected. -/
theorem C9_validateFormat_line_pattern :
    (∀ s : String,
      (validateReviewFormat s).fst = true ↔
        ∃ l ∈ pySplitNl (pyStrip s), lineRefSearch l = true) ∧
    (validateReviewFormat "this code is bad").fst = false ∧
    (validateReviewFormat "Line 5: array index may overflow").fst = true := by
  refine ⟨?_, rfl, rfl⟩
  intro s
  by_cases h : s = "" ∨ pyStrip s = ""
  · rw [validateReviewFormat, if_pos h]
    have hstrip : pyStrip s = "" := by
      rcases h with rfl | h
      · rfl
      · exact h
    rw [hstrip]
    constructor
    · intro hfalse
      exact absurd hfalse (by simp)
    · rintro ⟨l, hl, hsearch⟩
      have : l = "" := by
        have : pySplitNl "" = [""] := rfl
        rw [this] at hl
        simpa using hl
      subst this
      exact absurd hsearch (by simp [lineRefSearch, lineRefSearchAux])
  · rw [validateReviewFormat, if_neg h]
    cases hv : (pySplitNl (pyStrip s)).filter lineRefSearch with
    | nil =>
        dsimp only
        rw [hv]
        constructor
        · intro hT
          exact absurd hT (by simp)
        · rintro ⟨l, hl, hsearch⟩
          have : l ∈ (pySplitNl (pyStrip s)).filter lineRefSearch :=
            List.mem_filter.mpr ⟨hl, hsearch⟩
          rw [hv] at this
          simp at this
    | cons a as =>
        dsimp only
        rw [hv]
        constructor
        · intro _
          have ha : a ∈ (pySplitNl (pyStrip s)).filter lineRefSearch := by
            rw [hv]; exact List.mem_cons_self a as
          have := List.mem_filter.mp ha
          exact ⟨a, this.1, this.2⟩
        · intro _
          rfl

/-- **C2** (code bug).  Evaluation of the code at the failing input: one
requested defect, verification response unparsable by every strategy.
`_extract_json_from_response` falls back to `missing_errors =
["EXTRACTION_FAILED"]` (its comments read "Include all requested errors as
missing to force regeneration" / "This will force regeneration"), but
`_process_evaluation_result` then drops the sentinel — `"EXTRACTION_FAILED"`
does not match `([A-Z]+)\s*-\s*([^:]+)` (it contains no `-`) — so the result
the engine stores has `missing_errors = []` (not the full requested list),
the engine's `'valid'` override becomes `True`, and the run proceeds to
review instead of regenerating. -/
theorem C2_sentinel_dropped_on_parse_failure :
    errKeySearch (t "extraction_failed") = none ∧
    dget storedGarbage (t "missing_errors") (PyVal.plist []) = PyVal.plist [] ∧
    dget storedGarbage "valid" (PyVal.pbool false) = PyVal.pbool true ∧
    dget storedGarbage (t "valid") (PyVal.pbool false) = PyVal.pbool false ∧
    (evaluateCodeNode stateOne
        (evaluateCodeAgent (PyVal.pdict extractionFailureDefault)
          (extractRequestedErrors stateOne))).current_step = "review" ∧
    (extractRequestedErrors stateOne).length = 1 :=
  ⟨rfl, rfl, rfl, rfl, rfl, rfl⟩

/-- **C5** (counterexample).  A generation response with no extractable code
in either slot (`"hello world"`: no fence of any kind) does *not* set
`runError` and does *not* halt: `generate_code_node` stores a snippet with
empty code and advances `current_step` to `"evaluate"`. -/
theorem C5_counterexample :
    extractBothCodeVersions "hello world" = ("", "") ∧
    (generateCodeNode stateSpecificMode "banking" [] "hello world").error = none ∧
    (generateCodeNode stateSpecificMode "banking" [] "hello world").current_step = "evaluate" ∧
    (generateCodeNode stateSpecificMode "banking" [] "hello world").code_snippet =
      some { code := "", clean_code := ""
           , raw_errors := [("java_errors", PyVal.plist [PyVal.pdict errOffByOne])]
           , expected_error_count := 1 } :=
  ⟨rfl, rfl, rfl, rfl⟩

/-- **C5** (amended).  Whenever extraction finds no code in either slot, the
generate node still does not touch `error` (it stays whatever it was), stores
a snippet whose two code fields are empty, and advances the phase to
`"evaluate"`; the failure is only logged. -/
theorem C5_amended_no_halt_on_empty_extraction (state : WState)
    (pickedDomain : String) (repoErrors : List PyDict) (response : String)
    (hmode : state.selected_specific_errors ≠ [])
    (hext : extractBothCodeVersions response = ("", "")) :
    (generateCodeNode state pickedDomain repoErrors response).error = state.error ∧
    (generateCodeNode state pickedDomain repoErrors response).current_step = "evaluate" ∧
    ∃ sn, (generateCodeNode state pickedDomain repoErrors response).code_snippet = some sn ∧
      sn.code = "" ∧ sn.clean_code = "" := by
  have hlen : 0 < state.selected_specific_errors.length := List.length_pos.mpr hmode
  refine ⟨?_, ?_, ?_⟩ <;>
  · unfold generateCodeNode generateCodeNode.generateContinue
    cases hdom : state.domain with
    | none => simp [hdom, hext, if_pos hlen]
    | some dm => by_cases hdm : dm = "" <;> simp [hdom, hdm, hext, if_pos hlen]

/-- Closed witness for `C5_amended_no_halt_on_empty_extraction` at the
concrete specific-mode state and the fence-free response. -/
theorem C5_amended_no_halt_on_empty_extraction_witness :
    (generateCodeNode stateSpecificMode "banking" [] "hello world").error =
        stateSpecificMode.error ∧
    (generateCodeNode stateSpecificMode "banking" [] "hello world").current_step = "evaluate" ∧
    ∃ sn, (generateCodeNode stateSpecificMode "banking" [] "hello world").code_snippet =
        some sn ∧ sn.code = "" ∧ sn.clean_code = "" :=
  C5_amended_no_halt_on_empty_extraction stateSpecificMode "banking" [] "hello world"
    (by simp [stateSpecificMode]) rfl

/-- **C6** (counterexample).  On the annotated-only extraction path a line
consisting solely of a defect-tag comment *is* dropped: the response below
has a three-line annotated block, and the synthesized clean code has two
lines. -/
theorem C6_counterexample :
    extractBothCodeVersions responseAnnotatedOnly =
      (annotatedWithTagLine, "int x = arr[n];\nint y = 0;") ∧
    (pySplitlines annotatedWithTagLine).length = 3 ∧
    (pySplitlines "int x = arr[n];\nint y = 0;").length = 2 :=
  ⟨rfl, rfl, rfl⟩

/-- **C6** (amended).  The clean code synthesized from an annotated block is
obtained line-by-line: a line without the `"// ERROR:"` marker is kept
verbatim, a line with the marker keeps only the right-stripped code before
it, and a line on which nothing remains (a comment-only line) is dropped —
so the clean line count is at most the annotated line count, with equality
exactly when no line strips to empty. -/
theorem C6_amended_clean_line_synthesis (a : String) :
    (∀ l ∈ pySplitlines a, strContains l "// ERROR:" = false → cleanOneLine l = some l) ∧
    (synthesizeCleanLines a).length ≤ (pySplitlines a).length ∧
    ((synthesizeCleanLines a).length = (pySplitlines a).length ↔
      ∀ l ∈ pySplitlines a, cleanOneLine l ≠ none) := by
  refine ⟨?_, ?_, ?_⟩
  · intro l _ h
    simp [cleanOneLine, h]
  · exact filterMap_length_le cleanOneLine (pySplitlines a)
  · exact filterMap_length_eq_iff cleanOneLine (pySplitlines a)

/-- Closed witness for `C6_amended_clean_line_synthesis` at the concrete
annotated block with a comment-only line. -/
theorem C6_amended_clean_line_synthesis_witness :
    (∀ l ∈ pySplitlines annotatedWithTagLine,
      strContains l "// ERROR:" = false → cleanOneLine l = some l) ∧
    (synthesizeCleanLines annotatedWithTagLine).length ≤
      (pySplitlines annotatedWithTagLine).length ∧
    ((synthesizeCleanLines annotatedWithTagLine).length =
        (pySplitlines annotatedWithTagLine).length ↔
      ∀ l ∈ pySplitlines annotatedWithTagLine, cleanOneLine l ≠ none) :=
  C6_amended_clean_line_synthesis annotatedWithTagLine

/-- **C3** (counterexample).  `should_regenerate_or_review` is not a function
of `(evaluationResult, evaluationAttempts, maxEvaluationAttempts)` alone: its
first check returns `"regenerate_code"` whenever `current_step` is the
explicit `"regenerate"` marker, even with the attempt budget exhausted
(`evaluation_attempts = max_evaluation_attempts = 3` here). -/
theorem C3_counterexample :
    shouldRegenerateOrReview stateRegenExhausted = some "regenerate_code" ∧
    stateRegenExhausted.max_evaluation_attempts ≤ stateRegenExhausted.evaluation_attempts :=
  ⟨rfl, Nat.le_refl 3⟩

/-- **C3** (amended).  Provided `current_step` is not the explicit
`"regenerate"` marker, a state whose evaluation budget is exhausted is never
routed to regeneration, whatever `missingDefects` or any other field holds:
the transition yields `"review_code"` (or raises on a malformed
`missing_errors` value), never `"regenerate_code"`. -/
theorem C3_amended_no_regenerate_when_exhausted (state : WState)
    (hstep : state.current_step ≠ "regenerate")
    (hmax : state.max_evaluation_attempts ≤ state.evaluation_attempts) :
    shouldRegenerateOrReview state ≠ some "regenerate_code" := by
  have hnl : ¬ (state.evaluation_attempts < state.max_evaluation_attempts) :=
    Nat.not_lt.mpr hmax
  unfold shouldRegenerateOrReview
  rw [if_neg hstep]
  cases hres : state.evaluation_result with
  | none => simp
  | some d =>
      split
      next x cats heq =>
        by_cases hv : (!List.isEmpty cats && (dget cats "valid" (PyVal.pbool false)).truthy) = true
        · simp [hv]
        · by_cases hde : List.isEmpty cats = true
          · simp [hv, hde, Option.bind, hnl]
          · cases hlen : (dget cats "missing_errors" (PyVal.plist [])).pyLen with
            | none => simp [hv, hde, hlen, Option.bind]
            | some n => simp [hv, hde, hlen, Option.bind, hnl]
      next x heq => exact absurd heq (by simp)

/-- Closed witness for `C3_amended_no_regenerate_when_exhausted`: the
exhausted state at the ordinary `"review"` marker with missing defects. -/
theorem C3_amended_no_regenerate_when_exhausted_witness :
    shouldRegenerateOrReview
        { stateRegenExhausted with current_step := "review" } ≠ some "regenerate_code" :=
  C3_amended_no_regenerate_when_exhausted
    { stateRegenExhausted with current_step := "review" }
    (by decide) (Nat.le_refl 3)

/-- **C4** (counterexample).  A state whose latest analysis is a perfect
score in the `ReviewAnalysis` fields (`Identified Count = Total Problems = 3
> 0`), with `review_sufficient` still false and iterations remaining, is
routed to `continue_review`, not to `generate_summary` as the claim's
if-and-only-if requires: `should_continue_review` reads the untranslated
keys `"identified_count"`/`"total_problems"`, which pipeline analyses do not
contain, so both default to 0 and the perfect-score disjunct never fires. -/
theorem C4_counterexample :
    shouldContinueReview statePerfectScore = some "continue_review" ∧
    shouldContinueReview statePerfectScore ≠ some "generate_summary" ∧
    dget analysisPerfect (t "identified_count") (PyVal.pnat 0) = PyVal.pnat 3 ∧
    dget analysisPerfect (t "total_problems") (PyVal.pnat 0) = PyVal.pnat 3 ∧
    statePerfectScore.current_iteration ≤ statePerfectScore.max_iterations ∧
    statePerfectScore.review_sufficient = false :=
  ⟨rfl, by decide, rfl, rfl, by decide, rfl⟩

/-- **C4** (amended).  For a state with a review history whose latest
analysis carries no untranslated `"identified_count"`/`"total_problems"`
keys (pipeline-produced analyses use the translated `"Identified Count"`/
`"Total Problems"` keys instead), the analyze transition completes exactly
when the iteration budget is exceeded or `reviewSufficient` is already true;
a perfect score still completes on the same analysis call, but only because
`analyze_review_node` has set `reviewSufficient` beforehand. -/
theorem C4_amended_complete_iff (state : WState) (latest : ReviewAttempt)
    (hlast : state.review_history.getLast? = some latest)
    (hic : dfind latest.analysis "identified_count" = none)
    (htp : dfind latest.analysis "total_problems" = none) :
    shouldContinueReview state = some "generate_summary" ↔
      (state.max_iterations < state.current_iteration ∨ state.review_sufficient = true) := by
  unfold shouldContinueReview
  rw [hlast]
  have h1 : dget latest.analysis "identified_count" (PyVal.pnat 0) = PyVal.pnat 0 := by
    simp [dget, hic]
  have h2 : dget latest.analysis "total_problems" (PyVal.pnat 0) = PyVal.pnat 0 := by
    simp [dget, htp]
  dsimp only
  rw [h1, h2]
  by_cases hgt : state.max_iterations < state.current_iteration
  · simp [Option.bind, PyVal.pyEq, PyVal.gtZero, Nat.lt_irrefl, hgt]
  · by_cases hsuff : state.review_sufficient
    · simp [Option.bind, PyVal.pyEq, PyVal.gtZero, Nat.lt_irrefl, hgt, hsuff]
    · simp [Option.bind, PyVal.pyEq, PyVal.gtZero, Nat.lt_irrefl, hgt, hsuff]

/-- Closed witness for `C4_amended_complete_iff`: the perfect-score state
with `review_sufficient` already set completes. -/
theorem C4_amended_complete_iff_witness :
    shouldContinueReview { statePerfectScore with review_sufficient := true } =
        some "generate_summary" ↔
      ({ statePerfectScore with review_sufficient := true }.max_iterations <
          { statePerfectScore with review_sufficient := true }.current_iteration ∨
        ({ statePerfectScore with review_sufficient := true }.review_sufficient = true)) :=
  C4_amended_complete_iff _ attemptPerfect rfl rfl rfl

/-! Values of the modelled translation table, as rewrite rules. -/

theorem t_found_errors : t "found_errors" = "found_errors" := rfl

theorem t_missing_errors : t "missing_errors" = "missing_errors" := rfl

theorem t_valid : t "valid" = "Valid" := rfl

theorem t_feedback : t "feedback" = "Feedback" := rfl

theorem t_original_error_count : t "original_error_count" = "Original Error Count" := rfl

theorem t_identified_count : t "identified_count" = "Identified Count" := rfl

theorem t_total_problems : t "total_problems" = "Total Problems" := rfl

theorem t_identified_percentage : t "identified_percentage" = "Identified Percentage" := rfl

theorem t_accuracy_percentage : t "accuracy_percentage" = "Accuracy Percentage" := rfl

theorem t_review_sufficient : t "review_sufficient" = "Review Sufficient" := rfl

theorem t_identified_problems : t "identified_problems" = "Identified Problems" := rfl

theorem t_missed_problems : t "missed_problems" = "Missed Problems" := rfl

/-- The updated analysis keeps whatever identified count the parsed analysis
carried: none of the keys written by the update equals `"Identified Count"`. -/
theorem buildUpdatedAnalysis_identified_count (e : PyDict) (original : Nat)
    (ic : PyVal) (pct : ℚ) :
    dget (buildUpdatedAnalysis e original ic pct) (t "identified_count") (PyVal.pnat 0) =
      dget e (t "identified_count") (PyVal.pnat 0) := by
  unfold buildUpdatedAnalysis
  by_cases h : PyVal.pyEq ic (PyVal.pnat original) = true <;>
    simp [h, t_identified_count, t_total_problems, t_original_error_count,
      t_identified_percentage, t_accuracy_percentage, t_review_sufficient,
      dget_dset_ne, dget_dset_self]

/-- The updated analysis carries `total_problems = original_error_count`. -/
theorem buildUpdatedAnalysis_total_problems (e : PyDict) (original : Nat)
    (ic : PyVal) (pct : ℚ) :
    dget (buildUpdatedAnalysis e original ic pct) (t "total_problems") (PyVal.pnat 0) =
      PyVal.pnat original := by
  unfold buildUpdatedAnalysis
  by_cases h : PyVal.pyEq ic (PyVal.pnat original) = true <;>
    simp [h, t_identified_count, t_total_problems, t_original_error_count,
      t_identified_percentage, t_accuracy_percentage, t_review_sufficient,
      dget_dset_ne, dget_dset_self]

/-- **C7** (counterexample).  Parsed analysis data reporting
`identified_count = 2` alongside an *empty* `identified_problems` list (and
`total_problems = 7`), for a run with `originalDefectCount = 1`: the stored
analysis keeps the parsed count 2 while its problem list has length 0 — the
claimed invariant `identifiedCount == len(identifiedProblems)` fails (the
count is parsed model output, never recomputed); `total_problems` is
overridden to 1. -/
theorem C7_counterexample :
    ((processEnhancedAnalysis analysisDataMismatch knownOne).bind
        fun a => analyzeReviewUpdate a 1) = some (storedMismatch, false) ∧
    dget storedMismatch (t "identified_count") (PyVal.pnat 0) = PyVal.pnat 2 ∧
    (dget storedMismatch (t "identified_problems") (PyVal.pbool false)).pyLen = some 0 ∧
    dget storedMismatch (t "total_problems") (PyVal.pnat 0) = PyVal.pnat 1 :=
  ⟨rfl, rfl, rfl, rfl⟩

/-- **C7** (amended).  For every analysis the pipeline stores with a positive
`originalDefectCount`: `total_problems` *is* re-derived to the run's
original count, but `identified_count` is whatever the parsed model output
reported (default 0) — it is carried through both processing stages
unchanged, not recomputed from `identifiedProblems`. -/
theorem C7_amended_count_parsed_total_rederived (d : PyDict) (kp : List String)
    (original : Nat) (e stored : PyDict) (suff : Bool)
    (he : processEnhancedAnalysis (PyVal.pdict d) kp = some (PyVal.pdict e))
    (hu : analyzeReviewUpdate (PyVal.pdict e) original = some (stored, suff))
    (hpos : 0 < original) :
    dget stored (t "identified_count") (PyVal.pnat 0) =
      dget d (t "identified_count") (PyVal.pnat 0) ∧
    dget stored (t "total_problems") (PyVal.pnat 0) = PyVal.pnat original := by
  -- invert the enhanced-analysis stage: the stored dict is the builder's
  -- output for the parsed count and total, at some percentage
  have hshape : ∃ pct : ℚ, e = buildEnhancedAnalysis d
      (dget d (t "identified_count") (PyVal.pnat 0))
      (dget d (t "total_problems") (PyVal.pnat kp.length)) pct := by
    unfold processEnhancedAnalysis at he
    by_cases htr : PyVal.truthy (PyVal.pdict d) = true
    case neg =>
      rw [Bool.not_eq_true] at htr
      simp [htr] at he
    case pos =>
      simp only [htr, Bool.not_true, Bool.false_eq_true, if_false] at he
      obtain ⟨tpPos, -, he1⟩ := Option.bind_eq_some.mp he
      cases tpPos with
      | false =>
          simp only [Bool.false_eq_true, if_false, Option.bind, Option.pure_def,
            Option.some_inj] at he1
          refine ⟨100, ?_⟩
          injection he1.symm with h1
          injection h1
      | true =>
          simp only [if_true] at he1
          obtain ⟨icq, -, he2⟩ := Option.bind_eq_some.mp he1
          obtain ⟨tpq, -, he3⟩ := Option.bind_eq_some.mp he2
          simp only [Option.bind, Option.pure_def, Option.some_inj] at he3
          refine ⟨icq / tpq * 100, ?_⟩
          injection he3.symm with h1
          injection h1
  obtain ⟨pct, hedict⟩ := hshape
  -- invert the node-update stage
  unfold analyzeReviewUpdate at hu
  dsimp only at hu
  rw [if_pos (show original > 0 from hpos)] at hu
  obtain ⟨ic, hic, hu2⟩ := Option.bind_eq_some.mp hu
  obtain ⟨icq, hicq, hu3⟩ := Option.bind_eq_some.mp hu2
  injection hu3 with hpair
  have hstored : stored = buildUpdatedAnalysis e original ic (icq / (original : ℚ) * 100) :=
    (congrArg Prod.fst hpair).symm
  constructor
  · rw [hstored, buildUpdatedAnalysis_identified_count, hedict]
    rfl
  · rw [hstored, buildUpdatedAnalysis_total_problems]

/-- Closed witness for `C7_amended_count_parsed_total_rederived` at the
mismatched concrete analysis. -/
theorem C7_amended_count_parsed_total_rederived_witness :
    dget storedMismatch (t "identified_count") (PyVal.pnat 0) =
      dget [ (t "identified_count", PyVal.pnat 2)
           , (t "identified_problems", PyVal.plist [])
           , (t "total_problems", PyVal.pnat 7) ] (t "identified_count") (PyVal.pnat 0) ∧
    dget storedMismatch (t "total_problems") (PyVal.pnat 0) = PyVal.pnat 1 :=
  C7_amended_count_parsed_total_rederived
    [ (t "identified_count", PyVal.pnat 2)
    , (t "identified_problems", PyVal.plist [])
    , (t "total_problems", PyVal.pnat 7) ]
    knownOne 1 enhancedMismatch storedMismatch false rfl rfl (by decide)

/-- **C8** (counterexample).  `_process_enhanced_analysis` on parsed data
with `total_problems = 0` puts `identified_percentage = 100.0` in the
analysis — not `0` as the claim states. -/
theorem C8_counterexample :
    processEnhancedAnalysis analysisDataZeroTotal [] =
      some (PyVal.pdict
        [ (t "identified_problems", PyVal.pbool false)
        , (t "missed_problems", PyVal.pbool false)
        , (t "identified_count", PyVal.pnat 0)
        , (t "total_problems", PyVal.pnat 0)
        , (t "identified_percentage", PyVal.prat 100)
        , (t "review_sufficient", PyVal.pbool false) ]) ∧
    (100 : ℚ) ≠ 0 :=
  ⟨rfl, by norm_num⟩

/-- **C8** (amended).  For parsed data with numeric count `ic` and total
`tp`, the enhanced analysis carries
`identifiedPercentage = ic/tp*100` when `tp > 0` and `= 100` — not `0` —
when `tp = 0`. -/
theorem C8_amended_percentage_formula (d : PyDict) (kp : List String) (ic tp : Nat)
    (hic : dget d (t "identified_count") (PyVal.pnat 0) = PyVal.pnat ic)
    (htp : dget d (t "total_problems") (PyVal.pnat kp.length) = PyVal.pnat tp)
    (hne : d ≠ []) :
    processEnhancedAnalysis (PyVal.pdict d) kp =
      some (PyVal.pdict (buildEnhancedAnalysis d (PyVal.pnat ic) (PyVal.pnat tp)
        (if 0 < tp then (ic : ℚ) / tp * 100 else 100))) ∧
    dget (buildEnhancedAnalysis d (PyVal.pnat ic) (PyVal.pnat tp)
        (if 0 < tp then (ic : ℚ) / tp * 100 else 100))
      (t "identified_percentage") PyVal.pnone =
      PyVal.prat (if 0 < tp then (ic : ℚ) / tp * 100 else 100) := by
  constructor
  · have htr : PyVal.truthy (PyVal.pdict d) = true := by
      cases d with
      | nil => exact absurd rfl hne
      | cons hd tl => rfl
    unfold processEnhancedAnalysis
    simp only [htr, Bool.not_true, Bool.false_eq_true, if_false]
    rw [hic, htp]
    by_cases h0 : 0 < tp
    · simp [PyVal.gtZero, PyVal.toRat, Option.bind, h0]
    · simp [PyVal.gtZero, PyVal.toRat, Option.bind, h0]
  · rfl

/-- Closed witness for `C8_amended_percentage_formula` at the zero-total
concrete data. -/
theorem C8_amended_percentage_formula_witness :
    processEnhancedAnalysis analysisDataZeroTotal [] =
      some (PyVal.pdict (buildEnhancedAnalysis
        [(t "total_problems", PyVal.pnat 0), (t "identified_count", PyVal.pnat 0)]
        (PyVal.pnat 0) (PyVal.pnat 0) (if 0 < 0 then (0 : ℚ) / 0 * 100 else 100))) ∧
    dget (buildEnhancedAnalysis
        [(t "total_problems", PyVal.pnat 0), (t "identified_count", PyVal.pnat 0)]
        (PyVal.pnat 0) (PyVal.pnat 0) (if 0 < 0 then (0 : ℚ) / 0 * 100 else 100))
      (t "identified_percentage") PyVal.pnone =
      PyVal.prat (if 0 < 0 then (0 : ℚ) / 0 * 100 else 100) :=
  C8_amended_percentage_formula
    [(t "total_problems", PyVal.pnat 0), (t "identified_count", PyVal.pnat 0)]
    [] 0 0 rfl rfl (by simp)

/-- For a natural count, "not greater than zero" is "equal to zero". -/
theorem bnot_decide_pos (n : Nat) : (!decide (0 < n)) = (n == 0) := by
  cases n with
  | zero => rfl
  | succ m => simp

/-- The processed result stores the processed found list under
`t("found_errors")`. -/
theorem buildProcessedResult_found (r1 : PyDict) (requested : List PyDict)
    (pf pm : List String) :
    dget (buildProcessedResult r1 requested pf pm) (t "found_errors") (PyVal.plist []) =
      PyVal.plist (pf.map PyVal.pstr) := by
  unfold buildProcessedResult
  simp [t_found_errors, t_missing_errors, t_valid, t_original_error_count, t_feedback,
    dget_dset_ne, dget_dset_self]

/-- The processed result stores the processed missing list under
`t("missing_errors")`. -/
theorem buildProcessedResult_missing (r1 : PyDict) (requested : List PyDict)
    (pf pm : List String) :
    dget (buildProcessedResult r1 requested pf pm) (t "missing_errors") (PyVal.plist []) =
      PyVal.plist (pm.map PyVal.pstr) := by
  unfold buildProcessedResult
  simp [t_found_errors, t_missing_errors, t_valid, t_original_error_count, t_feedback,
    dget_dset_ne, dget_dset_self]

/-- The processed result's `t("valid")` field is the evaluator's conjunction:
no missing defects *and* found count equal to the requested count. -/
theorem buildProcessedResult_valid (r1 : PyDict) (requested : List PyDict)
    (pf pm : List String) :
    dget (buildProcessedResult r1 requested pf pm) (t "valid") (PyVal.pbool false) =
      PyVal.pbool (pm.length == 0 && pf.length == requested.length) := by
  unfold buildProcessedResult
  simp [t_found_errors, t_missing_errors, t_valid, t_original_error_count, t_feedback,
    dget_dset_ne, dget_dset_self]

/-- What `evaluate_code_node` stores for a dict agent result: the agent's
dict with the original count attached under the literal key
`"original_error_count"` and the `'valid'` override attached under the
literal key `"valid"`. -/
theorem evaluateCodeNode_stores (state : WState) (sn : CodeSnippet)
    (hsn : state.code_snippet = some sn) (pd : PyDict) :
    ∃ orig : Nat,
      (evaluateCodeNode state (PyVal.pdict pd)).evaluation_result =
        some (dset (dset pd "original_error_count" (PyVal.pnat orig)) "valid"
          (PyVal.pbool (!decide ((((dget (dset pd "original_error_count" (PyVal.pnat orig))
              (t "missing_errors") (PyVal.plist [])).pyLen).getD 0) > 0)))) := by
  unfold evaluateCodeNode
  rw [hsn]
  exact ⟨_, rfl⟩

/-- **C1** (counterexample).  One requested defect (`N = 1`); the verifier's
parsed response reports nothing found and nothing missing.  The result the
engine stores has `valid = True` — the node override
`evaluation_result['valid'] = not has_missing` dropped the
`len(foundDefects) == N` conjunct — so `valid == true` does *not* imply
`len(foundDefects) == 1`, refuting the claimed equivalence on the stored
result. -/
theorem C1_counterexample :
    ¬ (dget storedEmptyLists "valid" (PyVal.pbool false) = PyVal.pbool true ↔
        (dget storedEmptyLists (t "missing_errors") (PyVal.plist []) = PyVal.plist [] ∧
         (dget storedEmptyLists (t "found_errors") (PyVal.plist [])).pyLen = some 1)) := by
  intro h
  obtain ⟨-, h2⟩ := h.mp rfl
  exact absurd h2 (by decide)

/-- **C1** (amended).  The evaluation dict the engine stores carries two
validity fields: the evaluator's translated `"Valid"` field — which *does*
equal "`missingDefects` empty and `len(foundDefects) == N`" — and the
engine's overriding literal `"valid"` field, which equals "`missingDefects`
empty" alone and is the field `should_regenerate_or_review` reads.  The
claimed equivalence holds only for the former. -/
theorem C1_amended_two_valid_fields (state : WState) (sn : CodeSnippet)
    (parsed : PyVal) (pd : PyDict)
    (hsn : state.code_snippet = some sn)
    (hpd : processEvaluationResult parsed (extractRequestedErrors state) = some pd) :
    ∃ (stored : PyDict) (pf pm : List String),
      (evaluateCodeNode state (PyVal.pdict pd)).evaluation_result = some stored ∧
      dget stored (t "found_errors") (PyVal.plist []) = PyVal.plist (pf.map PyVal.pstr) ∧
      dget stored (t "missing_errors") (PyVal.plist []) = PyVal.plist (pm.map PyVal.pstr) ∧
      dget stored "valid" (PyVal.pbool false) = PyVal.pbool (pm.length == 0) ∧
      dget stored (t "valid") (PyVal.pbool false) =
        PyVal.pbool (pm.length == 0 &&
          pf.length == (extractRequestedErrors state).length) := by
  dsimp only [processEvaluationResult] at hpd
  obtain ⟨pf, hpf, hpd1⟩ := Option.bind_eq_some.mp hpd
  obtain ⟨pm, hpm, hpd2⟩ := Option.bind_eq_some.mp hpd1
  rw [Option.pure_def, Option.some_inj] at hpd2
  subst hpd2
  obtain ⟨orig, hstore⟩ := evaluateCodeNode_stores state sn hsn _
  refine ⟨_, pf, pm, hstore, ?_, ?_, ?_, ?_⟩
  · rw [dget_dset_ne _ _ _ _ _ (by rw [t_found_errors]; decide),
        dget_dset_ne _ _ _ _ _ (by rw [t_found_errors]; decide),
        buildProcessedResult_found]
  · rw [dget_dset_ne _ _ _ _ _ (by rw [t_missing_errors]; decide),
        dget_dset_ne _ _ _ _ _ (by rw [t_missing_errors]; decide),
        buildProcessedResult_missing]
  · rw [dget_dset_self,
        dget_dset_ne _ _ _ _ _ (by rw [t_missing_errors]; decide),
        buildProcessedResult_missing]
    simp [PyVal.pyLen, bnot_decide_pos]
  · rw [dget_dset_ne _ _ _ _ _ (by rw [t_valid]; decide),
        dget_dset_ne _ _ _ _ _ (by rw [t_valid]; decide),
        buildProcessedResult_valid]

/-- Closed witness for `C1_amended_two_valid_fields` at the concrete
one-defect state with an empty-lists parsed response. -/
theorem C1_amended_two_valid_fields_witness :
    ∃ (stored : PyDict) (pf pm : List String),
      (evaluateCodeNode stateOne
          (PyVal.pdict ((processEvaluationResult parsedEmptyLists
            (extractRequestedErrors stateOne)).getD []))).evaluation_result = some stored ∧
      dget stored (t "found_errors") (PyVal.plist []) = PyVal.plist (pf.map PyVal.pstr) ∧
      dget stored (t "missing_errors") (PyVal.plist []) = PyVal.plist (pm.map PyVal.pstr) ∧
      dget stored "valid" (PyVal.pbool false) = PyVal.pbool (pm.length == 0) ∧
      dget stored (t "valid") (PyVal.pbool false) =
        PyVal.pbool (pm.length == 0 &&
          pf.length == (extractRequestedErrors stateOne).length) :=
  C1_amended_two_valid_fields stateOne snippetOne parsedEmptyLists
    ((processEvaluationResult parsedEmptyLists (extractRequestedErrors stateOne)).getD [])
    rfl rfl

end PeerVer
